import Mathlib

/-!
Shallow embedding of the bitwarden-secrets-manager Terraform provider
(`internal/provider/*.go`) and proofs about its configuration, resource
and data-source logic.
-/

namespace BwProvider

/-- Embedding of the plugin framework's `types.String`: a value is unknown,
null, or a known string.  `ValueString` returns the empty string for the
null and unknown states, as the framework does. -/
inductive TString where
  | unknown
  | null
  | value (s : String)
deriving DecidableEq, Repr

def TString.isUnknown : TString → Bool
  | .unknown => true
  | _ => false

def TString.isNull : TString → Bool
  | .null => true
  | _ => false

def TString.valueString : TString → String
  | .value s => s
  | _ => ""

/-- `bitwardenProviderModel` from provider.go: the three provider attributes. -/
structure bitwardenProviderModel where
  ApiUrl : TString
  IdentityUrl : TString
  AccessToken : TString
deriving DecidableEq, Repr

/-- The three environment variables read by `Configure`. -/
structure Env where
  BW_API_URL : String
  BW_IDENTITY_URL : String
  BW_ACCESS_TOKEN : String
deriving DecidableEq, Repr

/-- Outcomes of the two external calls `Configure` makes: client
construction (`bitwarden.NewBitwardenClient`) and `AccessTokenLogin`.
`none` means the call succeeds. -/
structure ConfigureDeps where
  newClientError : Option String
  loginError : Option String
deriving DecidableEq, Repr

/-- Observable outcome of `Configure`.  `apiUrl`/`identityUrl` are the URLs
handed to `NewBitwardenClient` (`none` when `Configure` returned before the
client stage); `loginToken` is the token passed to `AccessTokenLogin`
(`none` when login was never invoked); `dataSourceData`/`resourceData` are
`some c` when the client handle `c` was stored (`c = none` models storing a
nil client). -/
structure ConfigureResult where
  diags : List String
  apiUrl : Option String
  identityUrl : Option String
  loginToken : Option String
  dataSourceData : Option (Option Unit)
  resourceData : Option (Option Unit)
deriving DecidableEq, Repr

/-- The endpoint-comparison condition from provider.go line 146:
`apiUrl != "https://api.bitwarden.com" || apiUrl != "https://api.bitwarden.eu"`. -/
def apiUrlSuffixCond (apiUrl : String) : Bool :=
  (apiUrl != "https://api.bitwarden.com") || (apiUrl != "https://api.bitwarden.eu")

/-- `BitwardenSecretsProvider.Configure` from provider.go, lines 70-186.
The environment variables are read first (lines 113-115); both branches of
each subsequent `if` reassign the url variables (lines 117-127), exactly as
in the source. -/
def Configure (config : bitwardenProviderModel) (env : Env) (deps : ConfigureDeps) :
    ConfigureResult :=
  let unknownDiags : List String :=
    (if config.ApiUrl.isUnknown then ["Unknown Bitwarden API url"] else []) ++
    (if config.IdentityUrl.isUnknown then ["Unknown Bitwarden Identity url"] else []) ++
    (if config.AccessToken.isUnknown then ["Unknown Bitwarden access token"] else [])
  if unknownDiags.isEmpty then
    let apiUrl0 := env.BW_API_URL
    let identityUrl0 := env.BW_IDENTITY_URL
    let accessToken0 := env.BW_ACCESS_TOKEN
    let apiUrl1 := if !config.ApiUrl.isNull then config.ApiUrl.valueString
      else "https://api.bitwarden.com"
    let identityUrl1 := if !config.IdentityUrl.isNull then config.IdentityUrl.valueString
      else "https://identity.bitwarden.com/connect/token"
    let accessToken1 := if !config.AccessToken.isNull then config.AccessToken.valueString
      else accessToken0
    if accessToken1 == "" then
      { diags := ["Missing Bitwarden access token"], apiUrl := none, identityUrl := none,
        loginToken := none, dataSourceData := none, resourceData := none }
    else
      let apiUrl2 := if apiUrlSuffixCond apiUrl1 then apiUrl1 ++ "/api" else apiUrl1
      let identityUrl2 :=
        if identityUrl1 == "https://identity.bitwarden.com" ||
           identityUrl1 == "https://identity.bitwarden.eu"
        then identityUrl1 ++ "/connect/token"
        else identityUrl1 ++ "/identity/connect/token"
      let clientDiags := match deps.newClientError with
        | some e => ["Error while creating the bitwarden client: " ++ e]
        | none => []
      let clientValue : Option Unit := if deps.newClientError.isSome then none else some ()
      let loginDiags := match deps.loginError with
        | some e => ["Unable to login to Bitwarden Secrets Manager: " ++ e]
        | none => []
      { diags := clientDiags ++ loginDiags,
        apiUrl := some apiUrl2,
        identityUrl := some identityUrl2,
        loginToken := some accessToken1,
        dataSourceData := some clientValue,
        resourceData := some clientValue }
  else
    { diags := unknownDiags, apiUrl := none, identityUrl := none, loginToken := none,
      dataSourceData := none, resourceData := none }

/-- The access token after applying config-over-environment precedence
(provider.go lines 115, 129-131). -/
def resolvedAccessToken (config : bitwardenProviderModel) (env : Env) : String :=
  if !config.AccessToken.isNull then config.AccessToken.valueString
  else env.BW_ACCESS_TOKEN

/-- Tags for the constructors returned by `Resources` (provider.go 195-201). -/
inductive ResourceCtor where
  | NewSecretResource
  | NewProjectResource
deriving DecidableEq, Repr

/-- Tags for the constructors returned by `DataSources` (provider.go 188-193). -/
inductive DataSourceCtor where
  | NewProjectDataSource
  | NewSecretDataSource
deriving DecidableEq, Repr

/-- `BitwardenSecretsProvider.Resources`, provider.go lines 195-201. -/
def Resources : List ResourceCtor := [.NewSecretResource, .NewSecretResource]

/-- `BitwardenSecretsProvider.DataSources`, provider.go lines 188-193. -/
def DataSources : List DataSourceCtor := [.NewProjectDataSource, .NewSecretDataSource]

/-! ## SDK response records (the fields this provider reads) -/

/-- `bitwarden.ProjectResponse` from the SDK. -/
structure ProjectResponse where
  CreationDate : String
  ID : String
  Name : String
  OrganizationID : String
  RevisionDate : String
deriving DecidableEq, Repr

/-- `bitwarden.SecretResponse` from the SDK.  `ProjectID` is a `*string`
in the SDK, embedded as an `Option`; a nil pointer is `none`. -/
structure SecretResponse where
  ID : String
  Key : String
  Value : String
  Note : String
  OrganizationID : String
  ProjectID : Option String
deriving DecidableEq, Repr

/-- Whether an `Except` holds a success value. -/
def exceptIsOk {ε α : Type} : Except ε α → Bool
  | .ok _ => true
  | .error _ => false

/-! ## Data sources -/

/-- `projectModel` from data_bitwarden_project.go. -/
structure projectModel where
  CreationDate : TString
  Id : TString
  Name : TString
  OrganizationId : TString
  RevisionDate : TString
deriving DecidableEq, Repr

/-- `projectDataSourceModel` from data_bitwarden_project.go. -/
structure projectDataSourceModel where
  Projects : List projectModel
  ID : TString
deriving DecidableEq, Repr

/-- `secretModel` from the secrets data source. -/
structure secretModel where
  Id : TString
  Key : TString
  Value : TString
  Note : TString
  OrganizationId : TString
  ProjectId : TString
deriving DecidableEq, Repr

/-- `secretDataSourceModel` from the secrets data source. -/
structure secretDataSourceModel where
  Secrets : List secretModel
  ID : TString
deriving DecidableEq, Repr

/-- Outcome of a data-source read: a state written back, a read aborted
with diagnostics (nothing written), or a nil-pointer dereference. -/
inductive ReadOutcome (σ : Type) where
  | state (s : σ)
  | failed (diags : List String)
  | panicked
deriving DecidableEq, Repr

/-- The record built from a fetched project in `projectDataSource.Read`
(data_bitwarden_project.go 126-132). -/
def projectFromResponse (project : ProjectResponse) : projectModel :=
  { CreationDate := .value project.CreationDate
    Name := .value project.Name
    Id := .value project.ID
    OrganizationId := .value project.OrganizationID
    RevisionDate := .value project.RevisionDate }

/-- The loop of `projectDataSource.Read` (data_bitwarden_project.go
115-134): iterate over the requested entries, appending each fetched
record to the accumulator, which starts as the requested list itself
(`info.Projects = append(info.Projects, ...)` while ranging over a
snapshot of `info.Projects`). -/
def projectsReadLoop (get : String → Except String ProjectResponse) :
    List projectModel → List projectModel → ReadOutcome (List projectModel)
  | [], acc => .state acc
  | projectInfo :: rest, acc =>
    match get projectInfo.Id.valueString with
    | .error _ => .failed ["Unable to list projects under organization id"]
    | .ok project => projectsReadLoop get rest (acc ++ [projectFromResponse project])

/-- `projectDataSource.Read`, data_bitwarden_project.go 110-139. -/
def projectDataSourceRead (get : String → Except String ProjectResponse)
    (info : projectDataSourceModel) : ReadOutcome projectDataSourceModel :=
  match projectsReadLoop get info.Projects info.Projects with
  | .state ps => .state { info with Projects := ps }
  | .failed ds => .failed ds
  | .panicked => .panicked

/-- The loop of `secretDataSource.Read` (secrets data source, lines
124-144): same append-to-the-ranged-list shape, and the record built from
a fetched secret dereferences `secret.ProjectID`, a nil pointer when the
response carries no project id. -/
def secretsReadLoop (get : String → Except String SecretResponse) :
    List secretModel → List secretModel → ReadOutcome (List secretModel)
  | [], acc => .state acc
  | secretInfo :: rest, acc =>
    match get secretInfo.Id.valueString with
    | .error _ => .failed ["Unable to list secrets under organization id"]
    | .ok secret =>
      match secret.ProjectID with
      | none => .panicked
      | some pid =>
        secretsReadLoop get rest (acc ++
          [{ Key := .value secret.Key, Value := .value secret.Value,
             Note := .value secret.Note, ProjectId := .value pid,
             OrganizationId := .value secret.OrganizationID, Id := .value secret.ID }])

/-- `secretDataSource.Read`, secrets data source lines 119-151. -/
def secretDataSourceRead (get : String → Except String SecretResponse)
    (info : secretDataSourceModel) : ReadOutcome secretDataSourceModel :=
  match secretsReadLoop get info.Secrets info.Secrets with
  | .state ss => .state { info with Secrets := ss }
  | .failed ds => .failed ds
  | .panicked => .panicked

/-! ## Resources -/

/-- `projectItemModel` from resource_bitwarden_project.go. -/
structure projectItemModel where
  Name : TString
  ProjectId : TString
  OrganizationId : TString
deriving DecidableEq, Repr

/-- `ProjectResourceModel` from resource_bitwarden_project.go. -/
structure ProjectResourceModel where
  Projects : List projectItemModel
  Id : TString
deriving DecidableEq, Repr

/-- `secretItemModel` from the secret resource. -/
structure secretItemModel where
  Key : TString
  Value : TString
  Note : TString
  SecretId : TString
  ProjectId : TString
  OrganizationId : TString
deriving DecidableEq, Repr

/-- `SecretResourceModel` from the secret resource. -/
structure SecretResourceModel where
  Secrets : List secretItemModel
  Id : TString
deriving DecidableEq, Repr

/-- The indexed write-back loop `data.Xs[i] = model`: replace the i-th
element of the first list by the i-th element of the second.  In the only
reachable case (every create/read succeeded) the two lists have the same
length. -/
def assignByIndex {α : Type} : List α → List α → List α
  | _ :: origRest, w :: ws => w :: assignByIndex origRest ws
  | orig, [] => orig
  | [], _ :: _ => []

/-- Outcome of a resource Create.  `trackingId` is the string assigned to
`data.Id` right after uuid generation (resource_bitwarden_project.go 125,
secret resource line 128); `calls` are the client create calls issued, in
order; `state` is `none` when the operation aborted before `State.Set`. -/
structure CreateOutcome (σ κ : Type) where
  diags : List String
  trackingId : String
  calls : List κ
  state : Option σ
deriving DecidableEq, Repr

/-- The record built from a create/read/update response in the project
resource (resource_bitwarden_project.go 141-145, 191-195, 238-242). -/
def projectItemFromResponse (projectItem : ProjectResponse) : projectItemModel :=
  { Name := .value projectItem.Name
    OrganizationId := .value projectItem.OrganizationID
    ProjectId := .value projectItem.ID }

/-- The create loop of `ProjectResource.Create` (resource_bitwarden_project.go
128-138): one client create per planned item, aborting on the first error.
Returns the calls issued and either the responses or the diagnostics. -/
def projectsCreateLoop (create : String → String → Except String ProjectResponse) :
    List projectItemModel →
      List (String × String) × Except (List String) (List ProjectResponse)
  | [] => ([], .ok [])
  | project :: rest =>
    let call := (project.Name.valueString, project.OrganizationId.valueString)
    match create call.1 call.2 with
    | .error e =>
      ([call], .error ["Could not create project, unexpected error: " ++ e])
    | .ok r =>
      let out := projectsCreateLoop create rest
      (call :: out.1, match out.2 with
        | .error ds => .error ds
        | .ok rs => .ok (r :: rs))

/-- `ProjectResource.Create`, resource_bitwarden_project.go 98-157.
`uuid` is the outcome of `uuid.GenerateUUID()`: `none` models a generation
error (the accompanying returned string is blank). -/
def projectCreate (uuid : Option String)
    (create : String → String → Except String ProjectResponse)
    (data : ProjectResourceModel) : CreateOutcome ProjectResourceModel (String × String) :=
  let uuidDiags : List String := match uuid with
    | none => ["Unable to generate resource id"]
    | some _ => []
  let resourceId : String := match uuid with
    | some s => s
    | none => ""
  let data1 : ProjectResourceModel := { data with Id := TString.value resourceId }
  let out := projectsCreateLoop create data1.Projects
  { diags := uuidDiags ++ (match out.2 with | .error ds => ds | .ok _ => []),
    trackingId := resourceId,
    calls := out.1,
    state := match out.2 with
      | .error _ => none
      | .ok resps => some { data1 with
          Projects := assignByIndex data1.Projects (resps.map projectItemFromResponse) } }

/-- The read loop of `ProjectResource.Read` plus its indexed write-back
(resource_bitwarden_project.go 177-196). -/
def projectsGetLoop (get : String → Except String ProjectResponse) :
    List projectItemModel → Except (List String) (List ProjectResponse)
  | [] => .ok []
  | project :: rest =>
    match get project.ProjectId.valueString with
    | .error e => .error ["Could not find project, unexpected error: " ++ e]
    | .ok r =>
      match projectsGetLoop get rest with
      | .error ds => .error ds
      | .ok rs => .ok (r :: rs)

/-- `ProjectResource.Read`, resource_bitwarden_project.go 159-200. -/
def projectRead (get : String → Except String ProjectResponse)
    (data : ProjectResourceModel) :
    List String × Option ProjectResourceModel :=
  match projectsGetLoop get data.Projects with
  | .error ds => (ds, none)
  | .ok resps =>
    ([], some { data with
      Projects := assignByIndex data.Projects (resps.map projectItemFromResponse) })

/-- Arguments of one `Secrets().Create` call: key, value, note,
organization id, project id list. -/
abbrev SecretCall := String × String × String × String × List String

/-- The record built from a create/read response in the secret resource
(secret resource lines 150-156 and 202-208): `ProjectId` is not assigned,
so it keeps the zero value of `types.String`, which is null. -/
def secretItemFromResponse (projectItem : SecretResponse) : secretItemModel :=
  { Key := .value projectItem.Key
    Value := .value projectItem.Value
    Note := .value projectItem.Note
    OrganizationId := .value projectItem.OrganizationID
    SecretId := .value projectItem.ID
    ProjectId := .null }

/-- The create loop of `SecretResource.Create` (secret resource 131-147). -/
def secretsCreateLoop
    (create : String → String → String → String → List String →
      Except String SecretResponse) :
    List secretItemModel → List SecretCall × Except (List String) (List SecretResponse)
  | [] => ([], .ok [])
  | secret :: rest =>
    let call : SecretCall := (secret.Key.valueString, secret.Value.valueString,
      secret.Note.valueString, secret.OrganizationId.valueString,
      [secret.ProjectId.valueString])
    match create call.1 call.2.1 call.2.2.1 call.2.2.2.1 call.2.2.2.2 with
    | .error e =>
      ([call], .error ["Could not create secret, unexpected error: " ++ e])
    | .ok r =>
      let out := secretsCreateLoop create rest
      (call :: out.1, match out.2 with
        | .error ds => .error ds
        | .ok rs => .ok (r :: rs))

/-- `SecretResource.Create`, secret resource lines 101-168. -/
def secretCreate (uuid : Option String)
    (create : String → String → String → String → List String →
      Except String SecretResponse)
    (data : SecretResourceModel) : CreateOutcome SecretResourceModel SecretCall :=
  let uuidDiags : List String := match uuid with
    | none => ["Unable to generate resource id"]
    | some _ => []
  let resourceId : String := match uuid with
    | some s => s
    | none => ""
  let data1 : SecretResourceModel := { data with Id := TString.value resourceId }
  let out := secretsCreateLoop create data1.Secrets
  { diags := uuidDiags ++ (match out.2 with | .error ds => ds | .ok _ => []),
    trackingId := resourceId,
    calls := out.1,
    state := match out.2 with
      | .error _ => none
      | .ok resps => some { data1 with
          Secrets := assignByIndex data1.Secrets (resps.map secretItemFromResponse) } }

/-- The read loop of `SecretResource.Read` (secret resource 188-199). -/
def secretsGetLoop (get : String → Except String SecretResponse) :
    List secretItemModel → Except (List String) (List SecretResponse)
  | [] => .ok []
  | secret :: rest =>
    match get secret.SecretId.valueString with
    | .error e => .error ["Could not find secret, unexpected error: " ++ e]
    | .ok r =>
      match secretsGetLoop get rest with
      | .error ds => .error ds
      | .ok rs => .ok (r :: rs)

/-- `SecretResource.Read`, secret resource lines 170-213. -/
def secretRead (get : String → Except String SecretResponse)
    (data : SecretResourceModel) : List String × Option SecretResourceModel :=
  match secretsGetLoop get data.Secrets with
  | .error ds => (ds, none)
  | .ok resps =>
    ([], some { data with
      Secrets := assignByIndex data.Secrets (resps.map secretItemFromResponse) })

/-- Result of a computation that may dereference a nil pointer. -/
inductive PanicOr (α : Type) where
  | panicked
  | ok (a : α)
deriving DecidableEq, Repr

/-- The record built from an update response in `SecretResource.Update`
(secret resource 254-261): unlike create/read, it assigns `ProjectId` by
dereferencing the response's `ProjectID` pointer. -/
def secretItemFromUpdateResponse (projectItem : SecretResponse) :
    PanicOr secretItemModel :=
  match projectItem.ProjectID with
  | none => .panicked
  | some pid =>
    .ok { SecretId := .value projectItem.ID
          Key := .value projectItem.Key
          Value := .value projectItem.Value
          Note := .value projectItem.Note
          OrganizationId := .value projectItem.OrganizationID
          ProjectId := .value pid }

/-- The indexed write-back loop of `SecretResource.Update` (secret resource
253-262) over the collected responses. -/
def secretUpdateWriteBack : List SecretResponse → PanicOr (List secretItemModel)
  | [] => .ok []
  | r :: rest =>
    match secretItemFromUpdateResponse r with
    | .panicked => .panicked
    | .ok item =>
      match secretUpdateWriteBack rest with
      | .panicked => .panicked
      | .ok items => .ok (item :: items)

/-! ## Scenario clients for the create-then-read round trip -/

/-- One-item secret plan for the create-then-read scenario. -/
def secretPlanOf (k v n o p : String) : SecretResourceModel :=
  { Secrets := [{ Key := .value k, Value := .value v, Note := .value n,
                  SecretId := .null, ProjectId := .value p, OrganizationId := .value o }],
    Id := .null }

/-- A backing client create that faithfully stores what it is given,
assigning server id "s1" and associating the first requested project id. -/
def faithfulSecretCreate :
    String → String → String → String → List String → Except String SecretResponse :=
  fun key value note org projectIds =>
    .ok { ID := "s1", Key := key, Value := value, Note := note,
          OrganizationID := org, ProjectID := projectIds.head? }

/-- The matching faithful Get: returns the stored secret for id "s1". -/
def faithfulSecretGet (k v n o p : String) : String → Except String SecretResponse :=
  fun id =>
    if id == "s1" then
      .ok { ID := "s1", Key := k, Value := v, Note := n,
            OrganizationID := o, ProjectID := some p }
    else .error "no secret with this id"

/-- Secret Create followed by Read on the state Create produced. -/
def secretCreateThenRead (k v n o p : String) : Option SecretResourceModel :=
  match (secretCreate (some "u0") faithfulSecretCreate (secretPlanOf k v n o p)).state with
  | none => none
  | some st1 => (secretRead (faithfulSecretGet k v n o p) st1).2

/-- One-item project plan for the create-then-read scenario. -/
def projectPlanOf (name org : String) : ProjectResourceModel :=
  { Projects := [{ Name := .value name, ProjectId := .null,
                   OrganizationId := .value org }],
    Id := .null }

/-- A faithful project create, assigning server id "p1". -/
def faithfulProjectCreate : String → String → Except String ProjectResponse :=
  fun name org =>
    .ok { CreationDate := "cd", ID := "p1", Name := name, OrganizationID := org,
          RevisionDate := "rd" }

/-- The matching faithful project Get. -/
def faithfulProjectGet (name org : String) : String → Except String ProjectResponse :=
  fun id =>
    if id == "p1" then
      .ok { CreationDate := "cd", ID := "p1", Name := name, OrganizationID := org,
            RevisionDate := "rd" }
    else .error "no project with this id"

/-- Project Create followed by Read on the state Create produced. -/
def projectCreateThenRead (name org : String) : Option ProjectResourceModel :=
  match (projectCreate (some "u0") faithfulProjectCreate (projectPlanOf name org)).state with
  | none => none
  | some st1 => (projectRead (faithfulProjectGet name org) st1).2

end BwProvider

namespace BwProvider

/-- The secrets data-source loop panics when every requested lookup
succeeds and some requested entry's response carries a nil `ProjectID`. -/
theorem secretsReadLoop_panics (get : String → Except String SecretResponse) :
    ∀ (l : List secretModel) (acc : List secretModel),
      (∀ s ∈ l, exceptIsOk (get s.Id.valueString) = true) →
      (∃ s ∈ l, ∃ resp, get s.Id.valueString = .ok resp ∧ resp.ProjectID = none) →
      secretsReadLoop get l acc = .panicked := by
  intro l
  induction l with
  | nil =>
    intro acc _ hsome
    simp at hsome
  | cons s rest ih =>
    intro acc hok hsome
    have hs := hok s (List.mem_cons_self s rest)
    cases hget : get s.Id.valueString with
    | error e =>
      rw [hget] at hs
      simp [exceptIsOk] at hs
    | ok resp =>
      cases hpid : resp.ProjectID with
      | none => simp [secretsReadLoop, hget, hpid]
      | some pid =>
        have hrest : ∃ s2 ∈ rest, ∃ r2, get s2.Id.valueString = .ok r2 ∧
            r2.ProjectID = none := by
          rcases hsome with ⟨s2, hmem, r2, hr2, hnilr⟩
          rcases List.mem_cons.mp hmem with heq | hmem2
          · subst heq
            rw [hget] at hr2
            cases hr2
            rw [hpid] at hnilr
            simp at hnilr
          · exact ⟨s2, hmem2, r2, hr2, hnilr⟩
        have hokrest : ∀ s2 ∈ rest, exceptIsOk (get s2.Id.valueString) = true :=
          fun s2 h2 => hok s2 (List.mem_cons_of_mem _ h2)
        simp only [secretsReadLoop, hget, hpid]
        exact ih _ hokrest hrest

/-- The Update write-back panics as soon as any response in the list has a
nil `ProjectID`. -/
theorem secretUpdateWriteBack_panics :
    ∀ (resps : List SecretResponse) (r : SecretResponse),
      r ∈ resps → r.ProjectID = none → secretUpdateWriteBack resps = .panicked := by
  intro resps
  induction resps with
  | nil =>
    intro r hmem _
    cases hmem
  | cons a rest ih =>
    intro r hmem hnil
    rcases List.mem_cons.mp hmem with heq | hmem2
    · subst heq
      simp [secretUpdateWriteBack, secretItemFromUpdateResponse, hnil]
    · cases h : secretItemFromUpdateResponse a with
      | panicked => simp [secretUpdateWriteBack, h]
      | ok item => simp [secretUpdateWriteBack, h, ih r hmem2 hnil]

end BwProvider

namespace BwProvider

/-- C5: the endpoint-comparison condition in `Configure` is true for every
string, including the two known SaaS hosts, so the "/api" suffix is
appended unconditionally. -/
theorem apiUrl_suffix_cond_always_true :
    (∀ apiUrl : String, apiUrlSuffixCond apiUrl = true) ∧
    (∀ apiUrl : String,
      (if apiUrlSuffixCond apiUrl then apiUrl ++ "/api" else apiUrl) = apiUrl ++ "/api") := by
  have h : ∀ apiUrl : String, apiUrlSuffixCond apiUrl = true := by
    intro s
    unfold apiUrlSuffixCond
    rcases eq_or_ne s "https://api.bitwarden.com" with hs | hs
    · subst hs; rfl
    · simp [bne_iff_ne, hs]
  exact ⟨h, fun s => by rw [h s]; simp⟩

/-- C1 counterexample: with api_url and identity_url null and access
token "tok123", `Configure` does not hand the claimed identity URL
`https://identity.bitwarden.com/connect/token` to the client: the
normalization appends `/identity/connect/token` to the default, which
already ends in `/connect/token`. -/
theorem Configure_null_defaults_counterexample :
    ¬ ((Configure ⟨.null, .null, .value "tok123"⟩ ⟨"", "", ""⟩ ⟨none, none⟩).identityUrl =
      some "https://identity.bitwarden.com/connect/token") := by
  decide

/-- C1 amended: with api_url and identity_url null and access token
"tok123", for every environment and every outcome of the external calls,
`Configure` constructs the client with api URL
`https://api.bitwarden.com/api` and identity URL
`https://identity.bitwarden.com/connect/token/identity/connect/token`,
and invokes login with "tok123". -/
theorem Configure_null_defaults (env : Env) (deps : ConfigureDeps) :
    (Configure ⟨.null, .null, .value "tok123"⟩ env deps).apiUrl =
        some "https://api.bitwarden.com/api" ∧
    (Configure ⟨.null, .null, .value "tok123"⟩ env deps).identityUrl =
        some "https://identity.bitwarden.com/connect/token/identity/connect/token" ∧
    (Configure ⟨.null, .null, .value "tok123"⟩ env deps).loginToken = some "tok123" :=
  ⟨rfl, rfl, rfl⟩

/-- C2: when api_url and identity_url are null in the configuration, the
environment variables `BW_API_URL` and `BW_IDENTITY_URL` never influence
the resolved endpoints — every environment yields the hardcoded defaults —
while the access-token environment variable does take effect when the
config attribute is null. -/
theorem Configure_env_vars_dead_for_urls (env : Env) (deps : ConfigureDeps) :
    (Configure ⟨.null, .null, .value "tok"⟩ env deps).apiUrl =
        some "https://api.bitwarden.com/api" ∧
    (Configure ⟨.null, .null, .value "tok"⟩ env deps).identityUrl =
        some "https://identity.bitwarden.com/connect/token/identity/connect/token" ∧
    (Configure ⟨.null, .null, .null⟩ ⟨"", "", "envtok"⟩ deps).loginToken = some "envtok" :=
  ⟨rfl, rfl, rfl⟩

/-- C8: with all configuration attributes known and the client construction
and login calls succeeding, `Configure` finishes with no error diagnostics
iff the access token resolved from config (or, when the config attribute is
null, from the environment variable) is non-empty. -/
theorem Configure_ok_iff_token_nonempty (config : bitwardenProviderModel) (env : Env)
    (deps : ConfigureDeps)
    (h1 : config.ApiUrl.isUnknown = false) (h2 : config.IdentityUrl.isUnknown = false)
    (h3 : config.AccessToken.isUnknown = false)
    (h4 : deps.newClientError = none) (h5 : deps.loginError = none) :
    ((Configure config env deps).diags = [] ↔ resolvedAccessToken config env ≠ "") := by
  unfold Configure resolvedAccessToken
  rw [h1, h2, h3]
  by_cases hnull : config.AccessToken.isNull = false
  · by_cases he : config.AccessToken.valueString = ""
    · simp [hnull, he, h4, h5]
    · simp [hnull, he, h4, h5]
  · by_cases he : env.BW_ACCESS_TOKEN = ""
    · simp [hnull, he, h4, h5]
    · simp [hnull, he, h4, h5]

/-- Witness for C8 at a concrete configuration. -/
theorem Configure_ok_iff_token_nonempty_witness :
    ((Configure ⟨.null, .null, .value "tok"⟩ ⟨"", "", ""⟩ ⟨none, none⟩).diags = [] ↔
      resolvedAccessToken ⟨.null, .null, .value "tok"⟩ ⟨"", "", ""⟩ ≠ "") :=
  Configure_ok_iff_token_nonempty _ _ _ rfl rfl rfl rfl rfl

/-- C9: when client construction fails, `Configure` does not return early:
a diagnostic is recorded, `AccessTokenLogin` is still invoked with the
resolved token, and the (nil) client is still stored into both
`DataSourceData` and `ResourceData`. -/
theorem Configure_continues_after_client_error (config : bitwardenProviderModel) (env : Env)
    (deps : ConfigureDeps) (e : String)
    (h1 : config.ApiUrl.isUnknown = false) (h2 : config.IdentityUrl.isUnknown = false)
    (h3 : config.AccessToken.isUnknown = false)
    (h4 : deps.newClientError = some e)
    (h6 : resolvedAccessToken config env ≠ "") :
    (Configure config env deps).diags ≠ [] ∧
    (Configure config env deps).loginToken = some (resolvedAccessToken config env) ∧
    (Configure config env deps).dataSourceData = some none ∧
    (Configure config env deps).resourceData = some none := by
  unfold resolvedAccessToken at h6
  unfold Configure resolvedAccessToken
  rw [h1, h2, h3]
  by_cases hnull : config.AccessToken.isNull = false
  · simp [hnull] at h6
    simp [hnull, h6, h4]
  · simp [hnull] at h6
    simp [hnull, h6, h4]

/-- Witness for C9 at a concrete configuration with a failing client
construction. -/
theorem Configure_continues_after_client_error_witness :
    (Configure ⟨.null, .null, .value "tok"⟩ ⟨"", "", ""⟩ ⟨some "boom", none⟩).diags ≠ [] ∧
    (Configure ⟨.null, .null, .value "tok"⟩ ⟨"", "", ""⟩ ⟨some "boom", none⟩).loginToken =
      some (resolvedAccessToken ⟨.null, .null, .value "tok"⟩ ⟨"", "", ""⟩) ∧
    (Configure ⟨.null, .null, .value "tok"⟩ ⟨"", "", ""⟩ ⟨some "boom", none⟩).dataSourceData =
      some none ∧
    (Configure ⟨.null, .null, .value "tok"⟩ ⟨"", "", ""⟩ ⟨some "boom", none⟩).resourceData =
      some none :=
  Configure_continues_after_client_error _ _ _ "boom" rfl rfl rfl rfl (by decide)

/-- C6: the `Resources` list registers the secret resource twice and the
project resource zero times, while `DataSources` registers the project and
secret data sources exactly once each. -/
theorem Resources_registration :
    Resources.count .NewSecretResource = 2 ∧
    Resources.count .NewProjectResource = 0 ∧
    DataSources = [.NewProjectDataSource, .NewSecretDataSource] ∧
    DataSources.count .NewProjectDataSource = 1 ∧
    DataSources.count .NewSecretDataSource = 1 := by
  refine ⟨rfl, rfl, rfl, rfl, rfl⟩

/-- C3: evaluating `projectDataSource.Read` on one requested id whose
lookup succeeds, the state written back holds two records — the untouched
request stub followed by the fetched record — not exactly one; and when
the single lookup fails, the read aborts with the generic diagnostic and
no state is written. -/
theorem projectDataSourceRead_appends_to_request_list :
    projectDataSourceRead
        (fun id => .ok { CreationDate := "cd", ID := id, Name := "proj",
                         OrganizationID := "org", RevisionDate := "rd" })
        { Projects := [{ CreationDate := .null, Id := .value "p1", Name := .null,
                         OrganizationId := .null, RevisionDate := .null }],
          ID := .null } =
      .state { Projects :=
                 [{ CreationDate := .null, Id := .value "p1", Name := .null,
                    OrganizationId := .null, RevisionDate := .null },
                  { CreationDate := .value "cd", Id := .value "p1", Name := .value "proj",
                    OrganizationId := .value "org", RevisionDate := .value "rd" }],
               ID := .null } ∧
    projectDataSourceRead (fun _ => .error "boom")
        { Projects := [{ CreationDate := .null, Id := .value "p1", Name := .null,
                         OrganizationId := .null, RevisionDate := .null }],
          ID := .null } =
      .failed ["Unable to list projects under organization id"] :=
  ⟨rfl, rfl⟩

/-- C4: with a backing client that faithfully stores and returns what
Create was given, secret create-then-read preserves key, value, note and
organization id, but the associated project id in the final state is null
— not the created association, whatever it was — because the create/read
write-backs never assign it.  The project resource round trip does
preserve name and organization id. -/
theorem secretCreateThenRead_loses_project_id (k v n o p nm org : String) :
    secretCreateThenRead k v n o p =
      some { Secrets := [{ Key := .value k, Value := .value v, Note := .value n,
                           SecretId := .value "s1", ProjectId := TString.null,
                           OrganizationId := .value o }],
             Id := .value "u0" } ∧
    TString.null ≠ TString.value p ∧
    projectCreateThenRead nm org =
      some { Projects := [{ Name := .value nm, ProjectId := .value "p1",
                            OrganizationId := .value org }],
             Id := .value "u0" } :=
  ⟨rfl, fun h => TString.noConfusion h, rfl⟩

/-- C7: in Create for both resources, a uuid-generation failure records a
diagnostic but does not halt: the blank id is still assigned to the
tracking id field and the per-item client create calls issued are the same
as under any other uuid outcome. -/
theorem create_continues_after_uuid_error
    (pcreate : String → String → Except String ProjectResponse)
    (pdata : ProjectResourceModel)
    (screate : String → String → String → String → List String →
      Except String SecretResponse)
    (sdata : SecretResourceModel) (u : Option String) :
    (projectCreate none pcreate pdata).diags.head? =
        some "Unable to generate resource id" ∧
    (projectCreate none pcreate pdata).trackingId = "" ∧
    (projectCreate none pcreate pdata).calls = (projectCreate u pcreate pdata).calls ∧
    (secretCreate none screate sdata).diags.head? =
        some "Unable to generate resource id" ∧
    (secretCreate none screate sdata).trackingId = "" ∧
    (secretCreate none screate sdata).calls = (secretCreate u screate sdata).calls :=
  ⟨rfl, rfl, rfl, rfl, rfl, rfl⟩

/-- C10: the secret Update write-back and the secrets data-source Read
dereference the response's `ProjectID` pointer unconditionally: whenever a
response carries a nil `ProjectID`, the operation ends in a panic, not a
diagnostic. -/
theorem secret_nil_project_id_panics
    (resps : List SecretResponse) (r : SecretResponse)
    (hmem : r ∈ resps) (hnil : r.ProjectID = none)
    (get : String → Except String SecretResponse) (info : secretDataSourceModel)
    (hok : ∀ s ∈ info.Secrets, exceptIsOk (get s.Id.valueString) = true)
    (hsome : ∃ s ∈ info.Secrets, ∃ resp, get s.Id.valueString = .ok resp ∧
      resp.ProjectID = none) :
    secretUpdateWriteBack resps = .panicked ∧
    secretDataSourceRead get info = .panicked := by
  constructor
  · exact secretUpdateWriteBack_panics resps r hmem hnil
  · unfold secretDataSourceRead
    rw [secretsReadLoop_panics get info.Secrets info.Secrets hok hsome]

/-- Witness for C10: a single response with a nil project id panics both
operations. -/
theorem secret_nil_project_id_panics_witness :
    secretUpdateWriteBack [{ ID := "s1", Key := "k", Value := "v", Note := "n",
                             OrganizationID := "o", ProjectID := none }] = .panicked ∧
    secretDataSourceRead
        (fun _ => .ok { ID := "s1", Key := "k", Value := "v", Note := "n",
                        OrganizationID := "o", ProjectID := none })
        { Secrets := [{ Id := .value "s1", Key := .null, Value := .null, Note := .null,
                        OrganizationId := .null, ProjectId := .null }],
          ID := .null } = .panicked :=
  secret_nil_project_id_panics _ _ (List.mem_singleton_self _) rfl _ _
    (fun _ _ => rfl) ⟨_, List.mem_singleton_self _, _, rfl, rfl⟩

end BwProvider
